import Mathlib

/-!
Verification of the screenshot classifier in
`src/MyPhotoHelper/Python/screenshot_detector.py`.

The Python module is embedded shallowly:
* scores (Python floats holding exact decimal constants and small rational
  arithmetic) are modelled as `ℚ`;
* the regular expressions actually used (literal substrings, `\s*`, `.*`,
  `\d{4}`, `\d{1,2}`, `[-_]`) are modelled by a small token matcher with
  `re.search` semantics (match anywhere, after lowercasing);
* `PIL.Image.open` / `getexif`, which may raise, are modelled as
  `Except String` inputs; the `try/except` blocks of the source become
  `match` on those inputs;
* EXIF is modelled as the list of `(tag_name, value)` pairs the Python loop
  iterates over, values as strings (truthiness = being nonempty);
* `HAS_PIL_SUPPORT` is taken to be true (PIL importable), as in the
  environment the spec describes.
-/

namespace ScreenshotDetector

/-- Regex tokens covering exactly the constructs appearing in the module's
patterns: a literal character, `\s*`, `.*`, `\d`, an optional `\d`
(so `\d{1,2}` is `digit` followed by `digitOpt`), and a character class. -/
inductive Tok where
  | lit (c : Char)
  | wsStar
  | anyStar
  | digit
  | digitOpt
  | cls (cs : List Char)
deriving DecidableEq, Repr

def isWsChar (c : Char) : Bool :=
  c = ' ' || c = '\t' || c = '\n' || c = '\r' || c = '\x0b' || c = '\x0c'

def isDigitChar (c : Char) : Bool :=
  '0' ≤ c && c ≤ '9'

/-- Nondeterministic (backtracking) matcher anchored at the start of `xs`.
Every recursive call shrinks `ts.length + xs.length`, so the fuel
`ts.length + xs.length + 1` supplied by `matchFrom` below always suffices;
fuel keeps the recursion structural. -/
def matchTokens (fuel : Nat) (ts : List Tok) (xs : List Char) : Bool :=
  match fuel with
  | 0 => false
  | fuel + 1 =>
    match ts, xs with
    | [], _ => true
    | .lit c :: ts', x :: xs' => x = c && matchTokens fuel ts' xs'
    | .lit _ :: _, [] => false
    | .wsStar :: ts', xs =>
        matchTokens fuel ts' xs ||
          (match xs with
           | x :: xs' => isWsChar x && matchTokens fuel (.wsStar :: ts') xs'
           | [] => false)
    | .anyStar :: ts', xs =>
        matchTokens fuel ts' xs ||
          (match xs with
           | _ :: xs' => matchTokens fuel (.anyStar :: ts') xs'
           | [] => false)
    | .digit :: ts', x :: xs' => isDigitChar x && matchTokens fuel ts' xs'
    | .digit :: _, [] => false
    | .digitOpt :: ts', xs =>
        matchTokens fuel ts' xs ||
          (match xs with
           | x :: xs' => isDigitChar x && matchTokens fuel ts' xs'
           | [] => false)
    | .cls cs :: ts', x :: xs' => cs.contains x && matchTokens fuel ts' xs'
    | .cls _ :: _, [] => false

def matchFrom (ts : List Tok) (xs : List Char) : Bool :=
  matchTokens (ts.length + xs.length + 1) ts xs

/-- `re.search`: the pattern may match starting at any position. -/
def reSearch (ts : List Tok) : List Char → Bool
  | [] => matchFrom ts []
  | x :: xs => matchFrom ts (x :: xs) || reSearch ts xs

def litToks (s : String) : List Tok := s.data.map Tok.lit

/-- `\d{4}[-_]\d{1,2}[-_]\d{1,2}` -/
def dateToks : List Tok :=
  [Tok.digit, Tok.digit, Tok.digit, Tok.digit, Tok.cls ['-', '_'],
   Tok.digit, Tok.digitOpt, Tok.cls ['-', '_'], Tok.digit, Tok.digitOpt]

/-- `SCREENSHOT_PATTERNS`, each with its source text (recorded in details). -/
def SCREENSHOT_PATTERNS : List (String × List Tok) :=
  [("screenshot", litToks "screenshot"),
   ("screen\\s*shot", litToks "screen" ++ [Tok.wsStar] ++ litToks "shot"),
   ("capture", litToks "capture"),
   ("snip", litToks "snip"),
   ("clipboardimage", litToks "clipboardimage"),
   ("shot", litToks "shot"),
   ("grab", litToks "grab"),
   ("print\\s*screen", litToks "print" ++ [Tok.wsStar] ++ litToks "screen"),
   ("prtsc", litToks "prtsc"),
   ("screenclip", litToks "screenclip")]

/-- `SCREENSHOT_DATE_PATTERNS`. -/
def SCREENSHOT_DATE_PATTERNS : List (String × List Tok) :=
  [("screenshot.*\\d\x7b4\x7d[-_]\\d\x7b1,2\x7d[-_]\\d\x7b1,2\x7d",
      litToks "screenshot" ++ [Tok.anyStar] ++ dateToks),
   ("screen\\s*shot.*\\d\x7b4\x7d[-_]\\d\x7b1,2\x7d[-_]\\d\x7b1,2\x7d",
      litToks "screen" ++ [Tok.wsStar] ++ litToks "shot" ++ [Tok.anyStar] ++ dateToks),
   ("capture.*\\d\x7b4\x7d[-_]\\d\x7b1,2\x7d[-_]\\d\x7b1,2\x7d",
      litToks "capture" ++ [Tok.anyStar] ++ dateToks),
   ("\\d\x7b4\x7d[-_]\\d\x7b1,2\x7d[-_]\\d\x7b1,2\x7d.*screenshot",
      dateToks ++ [Tok.anyStar] ++ litToks "screenshot")]

/-- `SCREENSHOT_SOFTWARE_PATTERNS` (all literal substrings). -/
def SCREENSHOT_SOFTWARE_PATTERNS : List String :=
  ["snagit", "lightshot", "greenshot", "puush", "gyazo",
   "screenshot", "capture", "snip", "spectacle", "flameshot", "scrot"]

def toLowerStr (s : String) : String := ⟨s.data.map Char.toLower⟩

/-- `os.path.basename`: the part after the last path separator. -/
def basename (p : String) : String :=
  ⟨(p.data.reverse.takeWhile (fun c => c ≠ '/' && c ≠ '\\')).reverse⟩

/-- The details dictionary built by `_analyze_filename`. -/
structure FilenameDetails where
  filename : String
  patterns_matched : List String
  date_patterns_matched : List String
  confidence_reason : String
deriving DecidableEq, Repr

/-- `ScreenshotDetector._analyze_filename` (lines 179-225). -/
def analyze_filename (image_path : String) : ℚ × FilenameDetails :=
  let filename := toLowerStr (basename image_path)
  let pattern_matches :=
    (SCREENSHOT_PATTERNS.filter (fun p => reSearch p.2 filename.data)).map Prod.fst
  let date_matches :=
    (SCREENSHOT_DATE_PATTERNS.filter (fun p => reSearch p.2 filename.data)).map Prod.fst
  if date_matches ≠ [] then
    (0.95, ⟨filename, pattern_matches, date_matches, "date_pattern"⟩)
  else if pattern_matches.length ≥ 2 then
    (0.90, ⟨filename, pattern_matches, date_matches, "multiple_patterns"⟩)
  else if pattern_matches ≠ [] then
    (0.85, ⟨filename, pattern_matches, date_matches, "single_pattern"⟩)
  else
    (0.0, ⟨filename, pattern_matches, date_matches, "no_match"⟩)

/-- `DESKTOP_RESOLUTIONS` table. -/
def DESKTOP_RESOLUTIONS : List ((Nat × Nat) × String) :=
  [((1920, 1080), "Full HD"), ((1366, 768), "HD Ready"), ((1536, 864), "HD+"),
   ((2560, 1440), "QHD"), ((3840, 2160), "4K UHD"), ((1440, 900), "WXGA+"),
   ((1680, 1050), "WSXGA+"), ((1280, 720), "HD"), ((1280, 800), "WXGA"),
   ((1024, 768), "XGA"), ((1600, 900), "HD+"), ((2048, 1152), "QWXGA"),
   ((2880, 1620), "3K"), ((5120, 2880), "5K")]

/-- `MOBILE_RESOLUTIONS` table. -/
def MOBILE_RESOLUTIONS : List ((Nat × Nat) × String) :=
  [((390, 844), "iPhone 12/13/14"), ((393, 852), "iPhone 14 Pro"),
   ((430, 932), "iPhone 14 Pro Max"), ((414, 896), "iPhone 11/XR"),
   ((375, 812), "iPhone X/11 Pro"), ((375, 667), "iPhone 6/7/8"),
   ((360, 800), "Android Common"), ((412, 915), "Pixel 7"),
   ((411, 891), "Galaxy S21"), ((384, 854), "Galaxy S22"),
   ((768, 1024), "iPad"), ((834, 1194), "iPad Air"),
   ((1024, 1366), "iPad Pro 12.9\"")]

def lookupRes (table : List ((Nat × Nat) × String)) (r : Nat × Nat) : Option String :=
  (table.find? (fun e => e.1 = r)).map Prod.snd

/-- The details dictionary built by `_analyze_resolution`; the `error` key is
absent (`none`) until the `except` branch adds it. -/
structure ResolutionDetails where
  width : Nat
  height : Nat
  resolution_match : Option String
  aspect_ratio : ℚ
  confidence_reason : String
  error : Option String
deriving DecidableEq, Repr

/-- `ScreenshotDetector._analyze_resolution` (lines 227-296).  The attempt to
open the image and read its size is the `Except` argument: `.error e` is the
path on which `Image.open`/size access raises with message `e`. -/
def analyze_resolution (img : Except String (Nat × Nat)) : ℚ × ResolutionDetails :=
  let d0 : ResolutionDetails :=
    { width := 0, height := 0, resolution_match := none, aspect_ratio := 0,
      confidence_reason := "no_pil", error := none }
  match img with
  | .error e => (0.0, { d0 with error := some e })
  | .ok (width, height) =>
    let ratio : ℚ := if height > 0 then (width : ℚ) / (height : ℚ) else 0
    let d := { d0 with width := width, height := height, aspect_ratio := ratio }
    match lookupRes DESKTOP_RESOLUTIONS (width, height) with
    | some name =>
        (0.80, { d with resolution_match := some ("Desktop: " ++ name),
                        confidence_reason := "exact_desktop_match" })
    | none =>
      match lookupRes MOBILE_RESOLUTIONS (width, height) with
      | some name =>
          (0.75, { d with resolution_match := some ("Mobile: " ++ name),
                          confidence_reason := "exact_mobile_match" })
      | none =>
        if |ratio - 16/9| < 0.01 then
          (0.60, { d with confidence_reason := "16_9_aspect_ratio" })
        else if |ratio - 16/10| < 0.01 then
          (0.55, { d with confidence_reason := "16_10_aspect_ratio" })
        else if |ratio - 4/3| < 0.01 then
          (0.45, { d with confidence_reason := "4_3_aspect_ratio" })
        else if ratio > 3 ∨ ratio < 0.3 then
          (0.10, { d with confidence_reason := "unusual_aspect_ratio" })
        else
          (0.30, { d with confidence_reason := "reasonable_dimensions" })

/-- The details dictionary built by `_analyze_metadata`. -/
structure MetadataDetails where
  has_exif : Bool
  has_camera_info : Bool
  software_info : Option String
  screenshot_software_detected : Bool
  confidence_reason : String
  error : Option String
deriving DecidableEq, Repr

def camera_fields : List String := ["Make", "Model", "LensModel", "LensMake"]

def softwareMatches (value : String) : Bool :=
  SCREENSHOT_SOFTWARE_PATTERNS.any
    (fun p => reSearch (litToks p) (toLowerStr value).data)

/-- The `for tag_id, value in exif.items()` loop of `_analyze_metadata`:
`.inl` is the early `return 0.90`, `.inr` carries `has_camera_info` and the
details accumulated when the loop runs to completion. -/
def exifLoop (items : List (String × String)) (hasCam : Bool)
    (d : MetadataDetails) : (ℚ × MetadataDetails) ⊕ (Bool × MetadataDetails) :=
  match items with
  | [] => Sum.inr (hasCam, d)
  | (tag, value) :: rest =>
    let hasCam' := hasCam || (camera_fields.contains tag && value ≠ "")
    if tag = "Software" ∧ value ≠ "" then
      let d' := { d with software_info := some value }
      if softwareMatches value then
        Sum.inl (0.90, { d' with screenshot_software_detected := true,
                                 confidence_reason := "screenshot_software" })
      else exifLoop rest hasCam' d'
    else exifLoop rest hasCam' d

/-- `ScreenshotDetector._analyze_metadata` (lines 298-362).  The attempt to
open the image and read `getexif()` is the `Except` argument; the EXIF
dictionary is the list of `(tag_name, value)` items, a value being truthy iff
nonempty. -/
def analyze_metadata (exifRes : Except String (List (String × String))) :
    ℚ × MetadataDetails :=
  let d0 : MetadataDetails :=
    { has_exif := false, has_camera_info := false, software_info := none,
      screenshot_software_detected := false, confidence_reason := "no_pil",
      error := none }
  match exifRes with
  | .error e => (0.0, { d0 with error := some e })
  | .ok exif =>
    let d := { d0 with has_exif := exif ≠ [] }
    if exif = [] then (0.60, { d with confidence_reason := "no_exif_data" })
    else
      match exifLoop exif false d with
      | Sum.inl r => r
      | Sum.inr (hasCam, d') =>
        let d'' := { d' with has_camera_info := hasCam }
        if ¬ hasCam then (0.50, { d'' with confidence_reason := "no_camera_info" })
        else (0.20, { d'' with confidence_reason := "has_camera_info" })

/-- `ScreenshotDetector._calculate_final_confidence` (lines 364-405),
including the unreachable `elif len(high_scores) >= 3` branch exactly as
written. -/
def calculate_final_confidence (filename_score resolution_score metadata_score : ℚ) : ℚ :=
  if filename_score > 0.8 then
    min 1 (filename_score + resolution_score * 0.1 + metadata_score * 0.1)
  else
    let weighted_score :=
      filename_score * 0.5 + resolution_score * 0.3 + metadata_score * 0.2
    let high_scores :=
      [filename_score, resolution_score, metadata_score].filter (fun s => s > 0.5)
    let agreement_bonus : ℚ :=
      if high_scores.length ≥ 2 then 0.1
      else if high_scores.length ≥ 3 then 0.15
      else 0.0
    min 1 (weighted_score + agreement_bonus)

/-- State of a path on the filesystem, as the detector observes it:
`os.path.exists`, the attempt to decode width/height, and the attempt to
read the EXIF items. -/
structure FileState where
  fileExists : Bool
  openResult : Except String (Nat × Nat)
  exifResult : Except String (List (String × String))

/-- Scores sub-dictionary stored under `final_scores`. -/
structure FinalScores where
  filename_score : ℚ
  resolution_score : ℚ
  metadata_score : ℚ
  final_confidence : ℚ
deriving DecidableEq, Repr

/-- The outer details dictionary of `detect_screenshot`; the three analysis
sub-dictionaries and `final_scores` start out empty (`none`). -/
structure Details where
  filename_analysis : Option FilenameDetails
  resolution_analysis : Option ResolutionDetails
  metadata_analysis : Option MetadataDetails
  final_scores : Option FinalScores
  detection_method : String
  error : Option String
deriving DecidableEq, Repr

def initialDetails : Details :=
  { filename_analysis := none, resolution_analysis := none,
    metadata_analysis := none, final_scores := none,
    detection_method := "none", error := none }

/-- `ScreenshotDetector.detect_screenshot` (lines 108-177).  The three
analyzers handle their own exceptions, and nothing else inside the `try`
raises, so the outer `except` is only ever reached through the modelled
failure inputs. -/
def detect_screenshot (image_path : String) (st : FileState) :
    Bool × ℚ × Details :=
  if ¬ st.fileExists then
    (false, 0.0, { initialDetails with error := some "File not found" })
  else
    let fr := analyze_filename image_path
    let rr := analyze_resolution st.openResult
    let mr := analyze_metadata st.exifResult
    let filename_score := fr.1
    let resolution_score := rr.1
    let metadata_score := mr.1
    let final_confidence :=
      calculate_final_confidence filename_score resolution_score metadata_score
    let method :=
      if filename_score > 0.8 then "filename"
      else if resolution_score > 0.6 ∧ metadata_score > 0.5 then "resolution_metadata"
      else if resolution_score > 0.7 then "resolution"
      else if metadata_score > 0.6 then "metadata"
      else "heuristic"
    let details : Details :=
      { filename_analysis := some fr.2, resolution_analysis := some rr.2,
        metadata_analysis := some mr.2,
        final_scores := some ⟨filename_score, resolution_score, metadata_score,
                              final_confidence⟩,
        detection_method := method, error := none }
    (final_confidence > 0.75, final_confidence, details)

/-- Python `dict` assignment `results[k] = v`: overwrite in place if the key
is present, else append. -/
def dictInsert {α : Type} (m : List (String × α)) (k : String) (v : α) :
    List (String × α) :=
  match m with
  | [] => [(k, v)]
  | (k', v') :: rest =>
    if k' = k then (k', v) :: rest else (k', v') :: dictInsert rest k v

/-- `batch_detect_screenshots` (lines 422-438): sequential iteration filling
a dict.  `fs` is the filesystem, giving each path its `FileState`. -/
def batch_detect_screenshots (fs : String → FileState) (image_paths : List String) :
    List (String × (Bool × ℚ × Details)) :=
  image_paths.foldl (fun results p => dictInsert results p (detect_screenshot p (fs p))) []

/-- Python `dict` read `results[k]`, as an option. -/
def dictLookup {α : Type} (m : List (String × α)) (k : String) : Option α :=
  match m with
  | [] => none
  | (k1, v) :: rest => if k1 = k then some v else dictLookup rest k

/-- A tag item is a `Software` entry whose truthy value names a screenshot
tool: exactly the condition on which the metadata loop returns `0.90`. -/
def softwareHit (tv : String × String) : Bool :=
  tv.1 = "Software" && tv.2 ≠ "" && softwareMatches tv.2

/-- A tag item is a camera-identifying field with a truthy value. -/
def cameraHit (tv : String × String) : Bool :=
  camera_fields.contains tv.1 && tv.2 ≠ ""

/-! ## Helper lemmas -/

/-- The filename analyzer only ever returns one of its four literal scores. -/
lemma analyze_filename_score_mem (p : String) :
    (analyze_filename p).1 ∈ ([0.95, 0.90, 0.85, 0] : List ℚ) := by
  simp only [analyze_filename]
  split_ifs <;> norm_num

/-- The resolution analyzer only ever returns one of its eight literal scores. -/
lemma analyze_resolution_score_mem (img : Except String (Nat × Nat)) :
    (analyze_resolution img).1 ∈
      ([0, 0.80, 0.75, 0.60, 0.55, 0.45, 0.10, 0.30] : List ℚ) := by
  unfold analyze_resolution
  rcases img with e | ⟨w, h⟩
  · norm_num
  · simp only
    rcases lookupRes DESKTOP_RESOLUTIONS (w, h) with _ | n₁
    · rcases lookupRes MOBILE_RESOLUTIONS (w, h) with _ | n₂
      · split_ifs <;> norm_num
      · norm_num
    · norm_num

/-- If the EXIF loop returns early, the score is the literal `0.90`. -/
lemma exifLoop_inl_score (items : List (String × String)) (hasCam : Bool)
    (d : MetadataDetails) (r : ℚ × MetadataDetails)
    (h : exifLoop items hasCam d = Sum.inl r) : r.1 = 0.90 := by
  induction items generalizing hasCam d with
  | nil => simp [exifLoop] at h
  | cons tv rest ih =>
    obtain ⟨tag, value⟩ := tv
    simp only [exifLoop] at h
    split_ifs at h with h1 h2
    · obtain rfl := (Sum.inl.injEq _ _).mp h
      rfl
    · exact ih _ _ h
    · exact ih _ _ h

/-- The metadata analyzer only ever returns one of its five literal scores. -/
lemma analyze_metadata_score_mem (exifRes : Except String (List (String × String))) :
    (analyze_metadata exifRes).1 ∈ ([0, 0.60, 0.90, 0.50, 0.20] : List ℚ) := by
  unfold analyze_metadata
  rcases exifRes with e | items
  · norm_num
  · simp only
    split_ifs with h
    · norm_num
    · rcases hl : exifLoop items false _ with r | ⟨hasCam, d'⟩
      · have := exifLoop_inl_score _ _ _ _ hl
        simp [this]
      · simp only
        split_ifs <;> norm_num

/-- The final confidence always lies in `[0, 1]` for non-negative sub-scores. -/
lemma calculate_final_confidence_bounds (f r m : ℚ)
    (hf : 0 ≤ f) (hr : 0 ≤ r) (hm : 0 ≤ m) :
    0 ≤ calculate_final_confidence f r m ∧ calculate_final_confidence f r m ≤ 1 := by
  unfold calculate_final_confidence
  split_ifs with h1
  · refine ⟨le_min (by norm_num) (by nlinarith), min_le_left _ _⟩
  · refine ⟨le_min (by norm_num) ?_, min_le_left _ _⟩
    have hb : (0 : ℚ) ≤
        (if ([f, r, m].filter (fun s => s > 0.5)).length ≥ 2 then (0.1 : ℚ)
         else if ([f, r, m].filter (fun s => s > 0.5)).length ≥ 3 then 0.15
         else 0) := by
      split_ifs <;> norm_num
    nlinarith

/-- Every attainable analyzer score is non-negative (and at most 1). -/
lemma score_mem_nonneg {x : ℚ} {l : List ℚ}
    (hl : ∀ y ∈ l, 0 ≤ y) (hx : x ∈ l) : 0 ≤ x := hl x hx

lemma analyze_filename_score_nonneg (p : String) : 0 ≤ (analyze_filename p).1 := by
  have h := analyze_filename_score_mem p
  simp only [List.mem_cons, List.not_mem_nil, or_false] at h
  rcases h with h | h | h | h <;> rw [h] <;> norm_num

lemma analyze_resolution_score_nonneg (img : Except String (Nat × Nat)) :
    0 ≤ (analyze_resolution img).1 := by
  have h := analyze_resolution_score_mem img
  simp only [List.mem_cons, List.not_mem_nil, or_false] at h
  rcases h with h | h | h | h | h | h | h | h <;> rw [h] <;> norm_num

lemma analyze_metadata_score_nonneg (exifRes : Except String (List (String × String))) :
    0 ≤ (analyze_metadata exifRes).1 := by
  have h := analyze_metadata_score_mem exifRes
  simp only [List.mem_cons, List.not_mem_nil, or_false] at h
  rcases h with h | h | h | h | h <;> rw [h] <;> norm_num

/-- On a missing file, `detect_screenshot` short-circuits to the error triple. -/
lemma detect_not_exists (p : String) (st : FileState) (h : st.fileExists = false) :
    detect_screenshot p st =
      (false, 0.0, { initialDetails with error := some "File not found" }) := by
  simp [detect_screenshot, h]

/-- On an existing file, `detect_screenshot` runs the three analyzers and
assembles the result exactly as in lines 135-173 of the source. -/
lemma detect_exists_eq (p : String) (st : FileState) (h : st.fileExists = true) :
    detect_screenshot p st =
      (decide (calculate_final_confidence (analyze_filename p).1
          (analyze_resolution st.openResult).1 (analyze_metadata st.exifResult).1 > 0.75),
       calculate_final_confidence (analyze_filename p).1
          (analyze_resolution st.openResult).1 (analyze_metadata st.exifResult).1,
       { filename_analysis := some (analyze_filename p).2,
         resolution_analysis := some (analyze_resolution st.openResult).2,
         metadata_analysis := some (analyze_metadata st.exifResult).2,
         final_scores := some
           ⟨(analyze_filename p).1, (analyze_resolution st.openResult).1,
            (analyze_metadata st.exifResult).1,
            calculate_final_confidence (analyze_filename p).1
              (analyze_resolution st.openResult).1 (analyze_metadata st.exifResult).1⟩,
         detection_method :=
           (if (analyze_filename p).1 > 0.8 then "filename"
            else if (analyze_resolution st.openResult).1 > 0.6 ∧
                    (analyze_metadata st.exifResult).1 > 0.5 then "resolution_metadata"
            else if (analyze_resolution st.openResult).1 > 0.7 then "resolution"
            else if (analyze_metadata st.exifResult).1 > 0.6 then "metadata"
            else "heuristic"),
         error := none }) := by
  simp [detect_screenshot, h]

/-! ## Claim theorems -/

/-- C1: the claim says the agreement bonus is exactly +0.15 when all three
sub-scores exceed 0.5.  In the code the `elif len(high_scores) >= 3` branch
is shadowed by the `if len(high_scores) >= 2` branch, so with all three
scores at 0.6 the bonus is +0.10 and the result is 0.70, not the 0.75 the
claimed +0.15 bonus would produce. -/
theorem agreement_bonus_dead_tier :
    calculate_final_confidence 0.6 0.6 0.6 = 0.70 ∧
    calculate_final_confidence 0.6 0.6 0.6 ≠
      min 1 (0.6 * 0.5 + 0.6 * 0.3 + 0.6 * 0.2 + 0.15) := by
  have h : calculate_final_confidence 0.6 0.6 0.6 = 0.70 := by
    with_unfolding_all exact rfl
  refine ⟨h, ?_⟩
  rw [h, min_def]
  norm_num

/-- C2: for every input path and filesystem state — including nonexistent
files and undecodable images — `detect_screenshot` returns a confidence in
`[0, 1]`, and on every return path the boolean verdict equals
`confidence > 0.75`. -/
theorem detect_confidence_in_unit_interval (p : String) (st : FileState) :
    0 ≤ (detect_screenshot p st).2.1 ∧ (detect_screenshot p st).2.1 ≤ 1 ∧
    ((detect_screenshot p st).1 = true ↔ (detect_screenshot p st).2.1 > 0.75) := by
  have hf := analyze_filename_score_nonneg p
  have hr := analyze_resolution_score_nonneg st.openResult
  have hm := analyze_metadata_score_nonneg st.exifResult
  have hb := calculate_final_confidence_bounds _ _ _ hf hr hm
  rcases hex : st.fileExists with _ | _
  · rw [detect_not_exists p st hex]
    norm_num
  · rw [detect_exists_eq p st hex]
    exact ⟨hb.1, hb.2, by simp⟩

/-- C6: for a path that does not exist, `detect_screenshot` returns
`(False, 0.0, details)` where the details record is the untouched initial
one except for `error = "File not found"`: in particular none of the three
analyzers has run (their sub-records are still empty) and the method is
still the initial `"none"`. -/
theorem file_not_found_result (p : String) (st : FileState)
    (h : st.fileExists = false) :
    detect_screenshot p st =
      (false, 0.0, { initialDetails with error := some "File not found" }) :=
  detect_not_exists p st h

/-- Witness for C6 at the spec's own example input. -/
theorem file_not_found_result_witness :
    detect_screenshot "/nonexistent.jpg"
        ⟨false, Except.error "e", Except.error "e"⟩ =
      (false, 0.0, { initialDetails with error := some "File not found" }) :=
  file_not_found_result "/nonexistent.jpg" ⟨false, Except.error "e", Except.error "e"⟩ rfl

/-- C10 counterexample: on the file-not-found path `detection_method` is
`"none"`, which is not one of the five claimed enum values. -/
theorem detection_method_none_cex :
    (detect_screenshot "/nonexistent.jpg"
        ⟨false, Except.error "f", Except.error "f"⟩).2.2.detection_method = "none" ∧
    "none" ∉ (["filename", "resolution", "resolution_metadata", "metadata",
               "heuristic"] : List String) := by
  refine ⟨?_, by decide⟩
  rw [detect_not_exists _ _ rfl]
  rfl

/-- C10 amended: on every call where the file exists (so the error paths are
not taken), `detection_method` is one of the five enum values, selected by
the stated thresholds on the three sub-scores. -/
theorem detection_method_enum (p : String) (st : FileState)
    (h : st.fileExists = true) :
    (detect_screenshot p st).2.2.detection_method ∈
      (["filename", "resolution", "resolution_metadata", "metadata",
        "heuristic"] : List String) ∧
    (detect_screenshot p st).2.2.detection_method =
      (if (analyze_filename p).1 > 0.8 then "filename"
       else if (analyze_resolution st.openResult).1 > 0.6 ∧
               (analyze_metadata st.exifResult).1 > 0.5 then "resolution_metadata"
       else if (analyze_resolution st.openResult).1 > 0.7 then "resolution"
       else if (analyze_metadata st.exifResult).1 > 0.6 then "metadata"
       else "heuristic") := by
  rw [detect_exists_eq p st h]
  refine ⟨?_, rfl⟩
  simp only
  split_ifs <;> simp

/-- Witness for C10's amended theorem on an existing but undecodable file. -/
theorem detection_method_enum_witness :
    (detect_screenshot "x" ⟨true, Except.error "e", Except.error "e"⟩).2.2.detection_method ∈
      (["filename", "resolution", "resolution_metadata", "metadata",
        "heuristic"] : List String) :=
  (detection_method_enum "x" ⟨true, Except.error "e", Except.error "e"⟩ rfl).1


/-- C3: the filename analyzer, matching the lowercased basename against the
fixed pattern sets, returns 0.95 if any date-stamped screenshot pattern
matches, else 0.90 if two or more generic patterns match, else 0.85 if
exactly one matches, else 0.0; and "IMG_1234.jpg" scores 0.0. -/
theorem filename_score_tiers :
    (∀ p : String,
      (analyze_filename p).1 =
        (if SCREENSHOT_DATE_PATTERNS.any
              (fun q => reSearch q.2 (toLowerStr (basename p)).data) then (0.95 : ℚ)
         else if 2 ≤ (SCREENSHOT_PATTERNS.filter
              (fun q => reSearch q.2 (toLowerStr (basename p)).data)).length then 0.90
         else if (SCREENSHOT_PATTERNS.filter
              (fun q => reSearch q.2 (toLowerStr (basename p)).data)).length = 1 then 0.85
         else 0.0)) ∧
    (analyze_filename "IMG_1234.jpg").1 = 0.0 := by
  constructor
  · intro p
    have key : ∀ (l : List (String × List Tok)) (f : String × List Tok → Bool),
        ((l.filter f).map Prod.fst ≠ [] ↔ l.any f = true) := by
      intro l f
      simp [List.filter_eq_nil_iff, List.any_eq_true]
    have hne : ∀ (l : List (String × List Tok)) (f : String × List Tok → Bool),
        ((l.filter f).map Prod.fst ≠ [] ↔ (l.filter f).length ≠ 0) := by
      intro l f
      simp [List.length_eq_zero]
    simp only [analyze_filename, List.length_map]
    by_cases hd : SCREENSHOT_DATE_PATTERNS.any
        (fun q => reSearch q.2 (toLowerStr (basename p)).data) = true
    · rw [if_pos ((key _ _).mpr hd), if_pos hd]
    · rw [if_neg (fun hh => hd ((key _ _).mp hh)), if_neg hd]
      by_cases h2 : 2 ≤ (SCREENSHOT_PATTERNS.filter
          (fun q => reSearch q.2 (toLowerStr (basename p)).data)).length
      · rw [if_pos h2, if_pos h2]
      · rw [if_neg h2, if_neg h2]
        by_cases h1 : (SCREENSHOT_PATTERNS.filter
            (fun q => reSearch q.2 (toLowerStr (basename p)).data)).length = 1
        · rw [if_pos ((hne _ _).mpr (by omega)), if_pos h1]
        · rw [if_neg (fun hh => h1 (by have := (hne _ _).mp hh; omega)), if_neg h1]
  · with_unfolding_all exact rfl

/-- C4: for every decodable image, the resolution analyzer returns 0.80 on an
exact desktop-table match, 0.75 on an exact mobile-table match, and otherwise
falls through the aspect-ratio buckets in order (0.60, 0.55, 0.45, 0.10,
0.30); and (1920, 1080) scores 0.80. -/
theorem resolution_score_cascade :
    (∀ w h : Nat,
      (analyze_resolution (Except.ok (w, h))).1 =
        (if (lookupRes DESKTOP_RESOLUTIONS (w, h)).isSome then (0.80 : ℚ)
         else if (lookupRes MOBILE_RESOLUTIONS (w, h)).isSome then 0.75
         else if |(if h > 0 then (w : ℚ) / (h : ℚ) else 0) - 16/9| < 0.01 then 0.60
         else if |(if h > 0 then (w : ℚ) / (h : ℚ) else 0) - 16/10| < 0.01 then 0.55
         else if |(if h > 0 then (w : ℚ) / (h : ℚ) else 0) - 4/3| < 0.01 then 0.45
         else if ((if h > 0 then (w : ℚ) / (h : ℚ) else 0) > 3 ∨
                  (if h > 0 then (w : ℚ) / (h : ℚ) else 0) < 0.3) then 0.10
         else 0.30)) ∧
    (analyze_resolution (Except.ok (1920, 1080))).1 = 0.80 := by
  constructor
  · intro w h
    simp only [analyze_resolution]
    rcases hD : lookupRes DESKTOP_RESOLUTIONS (w, h) with _ | n
    · rcases hM : lookupRes MOBILE_RESOLUTIONS (w, h) with _ | m
      · simp only [hD, hM]
        split_ifs <;> first | rfl | simp_all
      · simp [hD, hM]
    · simp [hD]
  · with_unfolding_all exact rfl

/-- If some EXIF item is a screenshot-software hit, the metadata loop
returns early with score 0.90. -/
lemma exifLoop_hit (items : List (String × String)) (hasCam : Bool)
    (d : MetadataDetails) (h : items.any softwareHit = true) :
    ∃ d1, exifLoop items hasCam d = Sum.inl (0.90, d1) := by
  induction items generalizing hasCam d with
  | nil => simp at h
  | cons tv rest ih =>
    obtain ⟨tag, value⟩ := tv
    simp only [List.any_cons, Bool.or_eq_true] at h
    simp only [exifLoop]
    by_cases hc : tag = "Software" ∧ value ≠ ""
    · by_cases hm : softwareMatches value = true
      · rw [if_pos hc, if_pos hm]
        exact ⟨_, rfl⟩
      · have hh : rest.any softwareHit = true := by
          rcases h with h | h
          · exfalso
            simp [softwareHit] at h
            exact hm h.2
          · exact h
        rw [if_pos hc, if_neg hm]
        exact ih _ _ hh
    · have hh : rest.any softwareHit = true := by
        rcases h with h | h
        · exfalso
          simp [softwareHit] at h
          exact hc h.1
        · exact h
      rw [if_neg hc]
      exact ih _ _ hh

/-- If no EXIF item is a screenshot-software hit, the metadata loop runs to
the end and accumulates exactly whether some camera tag is present. -/
lemma exifLoop_no_hit (items : List (String × String)) (hasCam : Bool)
    (d : MetadataDetails) (h : items.any softwareHit = false) :
    ∃ d1, exifLoop items hasCam d =
      Sum.inr (hasCam || items.any cameraHit, d1) := by
  induction items generalizing hasCam d with
  | nil => exact ⟨d, by simp [exifLoop]⟩
  | cons tv rest ih =>
    obtain ⟨tag, value⟩ := tv
    simp only [List.any_cons, Bool.or_eq_false_iff] at h
    obtain ⟨h1, h2⟩ := h
    simp only [exifLoop]
    by_cases hc : tag = "Software" ∧ value ≠ ""
    · have hm : softwareMatches value = false := by
        simp [softwareHit, hc.1, hc.2] at h1
        exact h1
      rw [if_pos hc, if_neg (by simp [hm])]
      obtain ⟨d1, hd1⟩ := ih (hasCam || cameraHit (tag, value)) _ h2
      refine ⟨d1, ?_⟩
      rw [show (hasCam || (camera_fields.contains tag && value ≠ "")) =
            (hasCam || cameraHit (tag, value)) from rfl, hd1]
      simp [List.any_cons, Bool.or_assoc]
    · rw [if_neg hc]
      obtain ⟨d1, hd1⟩ := ih (hasCam || cameraHit (tag, value)) _ h2
      refine ⟨d1, ?_⟩
      rw [show (hasCam || (camera_fields.contains tag && value ≠ "")) =
            (hasCam || cameraHit (tag, value)) from rfl, hd1]
      simp [List.any_cons, Bool.or_assoc]

/-- C5: for every accessible EXIF, the metadata analyzer returns 0.60 when no
EXIF is present; 0.90 when some Software tag with a truthy value matches a
screenshot-tool pattern, regardless of camera tags; otherwise 0.20 when a
camera tag (Make, Model, LensModel, LensMake) is present with a value and
0.50 when none is.  A Software value "Lightshot 5.5" scores 0.90 even with a
Make tag present. -/
theorem metadata_score_tiers :
    (∀ items : List (String × String),
      (analyze_metadata (Except.ok items)).1 =
        (if items = [] then (0.60 : ℚ)
         else if items.any softwareHit then 0.90
         else if items.any cameraHit then 0.20
         else 0.50)) ∧
    (analyze_metadata
        (Except.ok [("Make", "Canon"), ("Software", "Lightshot 5.5")])).1 = 0.90 := by
  constructor
  · intro items
    simp only [analyze_metadata]
    by_cases he : items = []
    · simp [he]
    · rw [if_neg he, if_neg he]
      by_cases hs : items.any softwareHit = true
      · obtain ⟨d1, hd1⟩ := exifLoop_hit items false _ hs
        rw [hd1, if_pos hs]
      · have hs2 : items.any softwareHit = false := by simpa using hs
        obtain ⟨d1, hd1⟩ := exifLoop_no_hit items false _ hs2
        rw [hd1]
        by_cases hc : items.any cameraHit = true
        · simp [hs2, hc]
        · have hc2 : items.any cameraHit = false := by simpa using hc
          simp [hs2, hc2]
  · with_unfolding_all exact rfl

/-- Combiner on the filename-dominant branch. -/
lemma calc_high (f r m : ℚ) (h : f > 0.8) :
    calculate_final_confidence f r m = min 1 (f + r * 0.1 + m * 0.1) := by
  simp only [calculate_final_confidence, if_pos h]

/-- Combiner on the weighted-average branch. -/
lemma calc_low (f r m : ℚ) (h : ¬ f > 0.8) :
    calculate_final_confidence f r m =
      min 1 (f * 0.5 + r * 0.3 + m * 0.2 +
        (if 2 ≤ (([f, r, m] : List ℚ).filter (fun s => s > 0.5)).length then 0.1
         else if 3 ≤ (([f, r, m] : List ℚ).filter (fun s => s > 0.5)).length then 0.15
         else 0.0)) := by
  simp only [calculate_final_confidence, if_neg h]

/-- C7: `detect_screenshot` never raises: on an existing file the result is
always fully populated (all three sub-records and the final scores are
filled in), and an analyzer whose image access fails contributes score 0.0
with the exception text recorded in its own sub-record, while the other
analyzers still run. -/
theorem analyzer_failures_degrade (p : String) (st : FileState)
    (hex : st.fileExists = true) :
    ((detect_screenshot p st).2.2.filename_analysis = some (analyze_filename p).2 ∧
     (detect_screenshot p st).2.2.resolution_analysis =
       some (analyze_resolution st.openResult).2 ∧
     (detect_screenshot p st).2.2.metadata_analysis =
       some (analyze_metadata st.exifResult).2 ∧
     (detect_screenshot p st).2.2.final_scores = some
       ⟨(analyze_filename p).1, (analyze_resolution st.openResult).1,
        (analyze_metadata st.exifResult).1,
        calculate_final_confidence (analyze_filename p).1
          (analyze_resolution st.openResult).1 (analyze_metadata st.exifResult).1⟩) ∧
    (∀ e, st.openResult = Except.error e →
       (analyze_resolution st.openResult).1 = 0 ∧
       (analyze_resolution st.openResult).2.error = some e) ∧
    (∀ e, st.exifResult = Except.error e →
       (analyze_metadata st.exifResult).1 = 0 ∧
       (analyze_metadata st.exifResult).2.error = some e) := by
  refine ⟨?_, ?_, ?_⟩
  · rw [detect_exists_eq p st hex]
    exact ⟨rfl, rfl, rfl, rfl⟩
  · intro e he
    rw [he]
    exact ⟨by norm_num [analyze_resolution], rfl⟩
  · intro e he
    rw [he]
    exact ⟨by norm_num [analyze_metadata], rfl⟩

/-- Witness for C7 on a file whose decode and EXIF access both fail. -/
theorem analyzer_failures_degrade_witness :
    (analyze_resolution (Except.error "decode failed")).1 = 0 ∧
    (analyze_resolution (Except.error "decode failed")).2.error = some "decode failed" :=
  (analyzer_failures_degrade "photo.jpg"
    ⟨true, Except.error "decode failed", Except.error "exif failed"⟩ rfl).2.1
    "decode failed" rfl

/-- C8: over the attainable analyzer outputs, raising the filename score from
any non-date value (0.0, 0.85, 0.90) to the date-pattern value 0.95 never
decreases the final confidence; and an existing file named
"Screenshot_2024-01-27.png" has filename score 0.95 and final confidence
above 0.75, hence verdict true, whatever the other two analyzers see. -/
theorem date_filename_monotone :
    (∀ r m : ℚ,
       r ∈ ([0, 0.80, 0.75, 0.60, 0.55, 0.45, 0.10, 0.30] : List ℚ) →
       m ∈ ([0, 0.60, 0.90, 0.50, 0.20] : List ℚ) →
       ∀ f ∈ ([0, 0.85, 0.90] : List ℚ),
         calculate_final_confidence f r m ≤ calculate_final_confidence 0.95 r m) ∧
    (analyze_filename "Screenshot_2024-01-27.png").1 = 0.95 ∧
    (∀ (o : Except String (Nat × Nat))
       (ex : Except String (List (String × String))),
       (detect_screenshot "Screenshot_2024-01-27.png" ⟨true, o, ex⟩).1 = true ∧
       (detect_screenshot "Screenshot_2024-01-27.png" ⟨true, o, ex⟩).2.1 > 0.75) := by
  refine ⟨?_, ?_, ?_⟩
  · intro r m hr hm f hf
    have hr2 : 0 ≤ r ∧ r ≤ 0.8 := by
      simp only [List.mem_cons, List.not_mem_nil, or_false] at hr
      rcases hr with h | h | h | h | h | h | h | h <;> rw [h] <;> norm_num
    have hm2 : 0 ≤ m ∧ m ≤ 0.9 := by
      simp only [List.mem_cons, List.not_mem_nil, or_false] at hm
      rcases hm with h | h | h | h | h <;> rw [h] <;> norm_num
    simp only [List.mem_cons, List.not_mem_nil, or_false] at hf
    rcases hf with h | h | h <;> rw [h]
    · have hb : (if 2 ≤ (([(0 : ℚ), r, m]).filter (fun s => s > 0.5)).length then (0.1 : ℚ)
          else if 3 ≤ (([(0 : ℚ), r, m]).filter (fun s => s > 0.5)).length then 0.15
          else 0.0) ≤ 0.1 := by
        split_ifs with hA hB
        · norm_num
        · omega
        · norm_num
      have h1 : calculate_final_confidence 0 r m ≤ (0.52 : ℚ) := by
        rw [calc_low _ _ _ (by norm_num)]
        refine le_trans (min_le_right _ _) ?_
        nlinarith [hr2.1, hr2.2, hm2.1, hm2.2, hb]
      have h2 : (0.52 : ℚ) ≤ calculate_final_confidence 0.95 r m := by
        rw [calc_high _ _ _ (by norm_num)]
        exact le_min (by norm_num) (by nlinarith [hr2.1, hm2.1])
      exact h1.trans h2
    · rw [calc_high _ _ _ (by norm_num), calc_high _ _ _ (by norm_num)]
      exact min_le_min (le_refl _) (by nlinarith)
    · rw [calc_high _ _ _ (by norm_num), calc_high _ _ _ (by norm_num)]
      exact min_le_min (le_refl _) (by nlinarith)
  · with_unfolding_all exact rfl
  · intro o ex
    have hf : (analyze_filename "Screenshot_2024-01-27.png").1 = 0.95 := by
      with_unfolding_all exact rfl
    have hr0 := analyze_resolution_score_nonneg o
    have hm0 := analyze_metadata_score_nonneg ex
    have hgt : calculate_final_confidence
        (analyze_filename "Screenshot_2024-01-27.png").1
        (analyze_resolution o).1 (analyze_metadata ex).1 > 0.75 := by
      rw [hf, calc_high _ _ _ (by norm_num)]
      exact lt_min (by norm_num) (by nlinarith)
    rw [detect_exists_eq _ _ rfl]
    exact ⟨by simpa using hgt, by simpa using hgt⟩

/-- Witness for C8 at filename score 0 against 0.95, with resolution 0.80
and metadata 0.60. -/
theorem date_filename_monotone_witness :
    calculate_final_confidence 0 0.80 0.60 ≤ calculate_final_confidence 0.95 0.80 0.60 :=
  date_filename_monotone.1 0.80 0.60 (by norm_num) (by norm_num) 0 (by norm_num)

lemma dictLookup_insert_self {α : Type} (m : List (String × α)) (k : String) (v : α) :
    dictLookup (dictInsert m k v) k = some v := by
  induction m with
  | nil => simp [dictInsert, dictLookup]
  | cons e rest ih =>
    obtain ⟨k1, v1⟩ := e
    by_cases h : k1 = k
    · simp [dictInsert, dictLookup, h]
    · simpa [dictInsert, dictLookup, h] using ih

lemma dictLookup_insert_ne {α : Type} (m : List (String × α)) (k k1 : String)
    (v : α) (h : k1 ≠ k) :
    dictLookup (dictInsert m k v) k1 = dictLookup m k1 := by
  have hk : ¬ k = k1 := fun hh => h hh.symm
  induction m with
  | nil => simp [dictInsert, dictLookup, hk]
  | cons e rest ih =>
    obtain ⟨k2, v2⟩ := e
    by_cases h2 : k2 = k
    · subst h2
      simp [dictInsert, dictLookup, hk]
    · by_cases h3 : k2 = k1
      · simp [dictInsert, dictLookup, h2, h3, h]
      · simpa [dictInsert, dictLookup, h2, h3] using ih

lemma batch_foldl_not_mem (fs : String → FileState) (paths : List String)
    (acc : List (String × (Bool × ℚ × Details))) (p : String) (h : p ∉ paths) :
    dictLookup (paths.foldl
      (fun results q => dictInsert results q (detect_screenshot q (fs q))) acc) p =
      dictLookup acc p := by
  induction paths generalizing acc with
  | nil => rfl
  | cons q rest ih =>
    simp only [List.mem_cons, not_or] at h
    simp only [List.foldl_cons]
    rw [ih _ h.2]
    exact dictLookup_insert_ne acc q p _ h.1

lemma batch_foldl_mem (fs : String → FileState) (paths : List String)
    (acc : List (String × (Bool × ℚ × Details))) (p : String) (h : p ∈ paths) :
    dictLookup (paths.foldl
      (fun results q => dictInsert results q (detect_screenshot q (fs q))) acc) p =
      some (detect_screenshot p (fs p)) := by
  induction paths generalizing acc with
  | nil => simp at h
  | cons q rest ih =>
    simp only [List.foldl_cons]
    by_cases hm : p ∈ rest
    · exact ih _ hm
    · have hpq : p = q := by
        rcases List.mem_cons.mp h with h1 | h1
        · exact h1
        · exact absurd h1 hm
      subst hpq
      rw [batch_foldl_not_mem fs rest _ p hm]
      exact dictLookup_insert_self acc p _

/-- C9: `detect_screenshot` is a pure function of the path and the file's
state, so two calls on an unchanged file agree; and `batch_detect_screenshots`
maps each input path to exactly the result `detect_screenshot` returns. -/
theorem detect_deterministic_and_batch :
    (∀ (fs fs2 : String → FileState) (p : String), fs p = fs2 p →
       detect_screenshot p (fs p) = detect_screenshot p (fs2 p)) ∧
    (∀ (fs : String → FileState) (paths : List String) (p : String), p ∈ paths →
       dictLookup (batch_detect_screenshots fs paths) p =
         some (detect_screenshot p (fs p))) := by
  constructor
  · intro fs fs2 p h
    rw [h]
  · intro fs paths p h
    exact batch_foldl_mem fs paths [] p h

/-- Witness for C9 on a one-element batch. -/
theorem detect_deterministic_and_batch_witness :
    dictLookup (batch_detect_screenshots
        (fun _ => ⟨false, Except.error "e", Except.error "e"⟩) ["a.jpg"]) "a.jpg" =
      some (detect_screenshot "a.jpg" ⟨false, Except.error "e", Except.error "e"⟩) :=
  detect_deterministic_and_batch.2
    (fun _ => ⟨false, Except.error "e", Except.error "e"⟩) ["a.jpg"] "a.jpg" (by simp)

end ScreenshotDetector
